import Mathlib

/-!
# Verification of the wechat webhook relay (`src/app.py`, `src/qpp.py`)

A shallow embedding of the two near-duplicate Flask backends in this
repository, together with proofs about the properties the specification
claims.  Python dictionaries parsed from JSON are modelled as association
lists of `JValue`; Python exceptions are modelled with `Except String`;
the outbound HTTP call of the completion client is modelled by passing the
upstream outcome in as a value.
-/

set_option maxHeartbeats 1000000
set_option maxRecDepth 100000

/-- A JSON value as produced by Python's `json` module / Flask's `get_json`.
Numbers are modelled as integers (the payloads in play never need floats). -/
inductive JValue where
  | null : JValue
  | bool : Bool → JValue
  | num : Int → JValue
  | str : String → JValue
  | arr : List JValue → JValue
  | obj : List (String × JValue) → JValue

/-- Python `dict.get(k)` on an association list: first binding wins
(dicts parsed from JSON have distinct keys, so the choice is immaterial). -/
def pyGet (fs : List (String × JValue)) (k : String) : Option JValue :=
  match fs with
  | [] => none
  | (k', v) :: rest => if k' = k then some v else pyGet rest k

/-- Python truthiness of a JSON value: `None`, `False`, `0`, `""`, `[]`, `{}`
are falsy, everything else truthy. -/
def truthy : JValue → Bool
  | .null => false
  | .bool b => b
  | .num n => n != 0
  | .str s => s != ""
  | .arr xs => !xs.isEmpty
  | .obj fs => !fs.isEmpty

/-- Whether a JSON value is an object (a Python `dict`). -/
def isObjB : JValue → Bool
  | .obj _ => true
  | _ => false

/-- Whitespace characters stripped by Python's `str.strip()` (the ASCII ones;
the payloads in play contain no exotic Unicode spaces). -/
def isWsChar (c : Char) : Bool :=
  c = ' ' || c = '\t' || c = '\n' || c = '\r' || c.toNat = 11 || c.toNat = 12

/-- Drop leading whitespace from a character list. -/
def dropWs : List Char → List Char
  | [] => []
  | c :: rest => if isWsChar c then dropWs rest else c :: rest

/-- Python `str.strip()`: drop leading and trailing whitespace. -/
def pyStrip (s : String) : String :=
  ⟨(dropWs ((dropWs s.data).reverse)).reverse⟩

/-- Python string slicing `s[:n]`, which counts code points. -/
def pySlice (s : String) (n : Nat) : String :=
  ⟨s.data.take n⟩

/-- Hexadecimal digit characters, lower case (as Python's `hexdigest`). -/
def hexDig (n : Nat) : Char :=
  "0123456789abcdef".data.getD n 'f'

/-- Does the character list `l` start with `p`? -/
def listStarts : List Char → List Char → Bool
  | _, [] => true
  | [], _ :: _ => false
  | a :: as, b :: bs => a = b && listStarts as bs

/-- Does the string `s` start with the string `p`? -/
def strStarts (s p : String) : Bool :=
  listStarts s.data p.data

/-- Does the character list `l` contain `p` as a contiguous run? -/
def listHasSub : List Char → List Char → Bool
  | l, p =>
    if listStarts l p then true
    else match l with
      | [] => false
      | _ :: t => listHasSub t p

/-- Does the string `hay` contain `needle` as a substring? -/
def strContains (hay needle : String) : Bool :=
  listHasSub hay.data needle.data

/-- JSON string escaping as done by `json.dumps` with `ensure_ascii=False`:
quote and backslash escaped, control characters escaped, everything else
(including non-ASCII) kept verbatim. -/
def escChar (c : Char) : List Char :=
  if c = '"' then ['\\', '"']
  else if c = '\\' then ['\\', '\\']
  else if c = '\n' then ['\\', 'n']
  else if c = '\t' then ['\\', 't']
  else if c = '\r' then ['\\', 'r']
  else if c.toNat = 8 then ['\\', 'b']
  else if c.toNat = 12 then ['\\', 'f']
  else if c.toNat < 32 then
    ['\\', 'u', '0', '0', hexDig (c.toNat / 16), hexDig (c.toNat % 16)]
  else [c]

/-- A JSON string literal as serialized by `json.dumps`. -/
def jsonStrLit (s : String) : String :=
  ⟨'"' :: (s.data.flatMap escChar) ++ ['"']⟩

mutual

/-- Python `json.dumps(v, ensure_ascii=False)` with the default separators
`", "` and `": "`, preserving insertion order of object fields. -/
def jsonDumpV : JValue → String
  | .null => "null"
  | .bool true => "true"
  | .bool false => "false"
  | .num n => toString n
  | .str s => jsonStrLit s
  | .arr xs => "[" ++ jsonDumpList xs ++ "]"
  | .obj fs => "\x7b" ++ jsonDumpFields fs ++ "\x7d"

/-- Comma-separated serialization of array elements. -/
def jsonDumpList : List JValue → String
  | [] => ""
  | [x] => jsonDumpV x
  | x :: y :: rest => jsonDumpV x ++ ", " ++ jsonDumpList (y :: rest)

/-- Comma-separated serialization of object fields. -/
def jsonDumpFields : List (String × JValue) → String
  | [] => ""
  | [(k, v)] => jsonStrLit k ++ ": " ++ jsonDumpV v
  | (k, v) :: p :: rest => jsonStrLit k ++ ": " ++ jsonDumpV v ++ ", " ++ jsonDumpFields (p :: rest)

end

/-! ## Query extractor

`extract_user_query` in both files builds a five-element candidate list and
returns the first candidate that is a string with non-empty `strip()`.  The
nested candidates are computed as `(payload.get(k) or {}).get("text")`: the
`or {}` replaces a falsy parent by an empty dict, but a *truthy* non-dict
parent flows through and the attribute access `.get` raises `AttributeError`.
Since Python evaluates the whole candidate list before the loop, that error
fires even when an earlier candidate would have matched. -/

/-- The nested candidate lookup `(payload.get(parent) or {}).get("text")`,
with `Except.error` modelling the `AttributeError` raised when the parent
value is truthy but not a dict. -/
def orEmptyGet (fs : List (String × JValue)) (parent : String) :
    Except String (Option JValue) :=
  match (match pyGet fs parent with
         | none => JValue.obj []
         | some v => if truthy v then v else JValue.obj []) with
  | .obj g => .ok (pyGet g "text")
  | _ => .error "AttributeError"

/-- The candidate list of `extract_user_query` in `src/app.py` (lines 57-63):
`query`, `text`, `content`, `message.text`, `nlpResult.text`, in that order. -/
def candidates_app (fs : List (String × JValue)) :
    Except String (List (Option JValue)) := do
  let m ← orEmptyGet fs "message"
  let n ← orEmptyGet fs "nlpResult"
  pure [pyGet fs "query", pyGet fs "text", pyGet fs "content", m, n]

/-- The candidate list of `extract_user_query` in `src/qpp.py` (lines 54-60):
`query`, `text`, `content`, `nlpResult.text`, `message.text` — the two nested
candidates come in the opposite order from `src/app.py`. -/
def candidates_qpp (fs : List (String × JValue)) :
    Except String (List (Option JValue)) := do
  let n ← orEmptyGet fs "nlpResult"
  let m ← orEmptyGet fs "message"
  pure [pyGet fs "query", pyGet fs "text", pyGet fs "content", n, m]

/-- The loop `for c in candidates: if isinstance(c, str) and c.strip(): return
c.strip()` — the first candidate that is a string and non-empty after
stripping, returned stripped. -/
def loopCand : List (Option JValue) → Option String
  | [] => none
  | some (.str s) :: rest =>
    if pyStrip s = "" then loopCand rest else some (pyStrip s)
  | _ :: rest => loopCand rest

/-- `extract_user_query` of `src/app.py` (lines 52-68): first matching
candidate, else `json.dumps(payload, ensure_ascii=False)`. -/
def extract_user_query_app (fs : List (String × JValue)) : Except String String :=
  match candidates_app fs with
  | .error e => .error e
  | .ok cs =>
    match loopCand cs with
    | some s => .ok s
    | none => .ok (jsonDumpV (.obj fs))

/-- `extract_user_query` of `src/qpp.py` (lines 49-65): same loop and fallback,
with the two nested candidates swapped. -/
def extract_user_query_qpp (fs : List (String × JValue)) : Except String String :=
  match candidates_qpp fs with
  | .error e => .error e
  | .ok cs =>
    match loopCand cs with
    | some s => .ok s
    | none => .ok (jsonDumpV (.obj fs))

/-! ### Spec-side definitions (for the refinement claims C1 and C6) -/

/-- Modelled from the spec's words: a nested lookup that treats a missing or
non-object parent as absent, never erroring. -/
def specLookup (fs : List (String × JValue)) (parent : String) : Option JValue :=
  match pyGet fs parent with
  | some (.obj g) => pyGet g "text"
  | _ => none

/-- Modelled from the spec's words: the first candidate that is a string and
non-empty after trimming surrounding whitespace, returned trimmed. -/
def specFirstMatch : List (Option JValue) → Option String
  | [] => none
  | some (.str s) :: rest =>
    if pyStrip s = "" then specFirstMatch rest else some (pyStrip s)
  | _ :: rest => specFirstMatch rest

/-- Modelled from the spec's words: the extraction result in the spec's fixed
candidate order `query`, `text`, `content`, `message.text`, `nlpResult.text`. -/
def specPickApp (fs : List (String × JValue)) : Option String :=
  specFirstMatch [pyGet fs "query", pyGet fs "text", pyGet fs "content",
    specLookup fs "message", specLookup fs "nlpResult"]

/-- The same spec-side extraction with the two nested candidates in the order
`src/qpp.py` actually uses: `nlpResult.text` before `message.text`. -/
def specPickQpp (fs : List (String × JValue)) : Option String :=
  specFirstMatch [pyGet fs "query", pyGet fs "text", pyGet fs "content",
    specLookup fs "nlpResult", specLookup fs "message"]

/-- Whether an optional parent value is safe for the `(… or {}).get` idiom:
absent, falsy, or an object. -/
def safeParentB : Option JValue → Bool
  | none => true
  | some v => !truthy v || isObjB v

/-- Both nested parents (`message` and `nlpResult`) are safe, so the candidate
computation of either extractor cannot raise. -/
def parentsSafeB (fs : List (String × JValue)) : Bool :=
  safeParentB (pyGet fs "message") && safeParentB (pyGet fs "nlpResult")

/-- Whether a candidate qualifies for the extraction loop: a string that is
non-empty after stripping. -/
def qualifies : Option JValue → Bool
  | some (.str s) => pyStrip s != ""
  | _ => false

/-- No candidate location of the payload holds a qualifying string. -/
def noCandB (fs : List (String × JValue)) : Bool :=
  !(qualifies (pyGet fs "query") || qualifies (pyGet fs "text") ||
    qualifies (pyGet fs "content") || qualifies (specLookup fs "message") ||
    qualifies (specLookup fs "nlpResult"))


/-! ## Signature verifier

`verify_signature` in both files computes
`hmac.new(WEBHOOK_SECRET.encode("utf-8"), raw_body, hashlib.sha256).hexdigest()`
and compares it to the `X-Signature` header with `hmac.compare_digest`.
The HMAC-SHA256 below is the algorithm the Python standard library
implements (FIPS 180-4 / RFC 2104); it is validated on published test
vectors further down. -/

/-- Wrap to a 32-bit word. -/
def w32 (n : Nat) : Nat := n % 4294967296

/-- Right rotation of a 32-bit word. -/
def rotr32 (x n : Nat) : Nat := w32 ((x >>> n) ||| (x <<< (32 - n)))

/-- SHA-256 Σ0. -/
def bsig0 (x : Nat) : Nat := rotr32 x 2 ^^^ rotr32 x 13 ^^^ rotr32 x 22

/-- SHA-256 Σ1. -/
def bsig1 (x : Nat) : Nat := rotr32 x 6 ^^^ rotr32 x 11 ^^^ rotr32 x 25

/-- SHA-256 σ0. -/
def ssig0 (x : Nat) : Nat := rotr32 x 7 ^^^ rotr32 x 18 ^^^ (x >>> 3)

/-- SHA-256 σ1. -/
def ssig1 (x : Nat) : Nat := rotr32 x 17 ^^^ rotr32 x 19 ^^^ (x >>> 10)

/-- SHA-256 Ch. -/
def chF (x y z : Nat) : Nat := (x &&& y) ^^^ ((4294967295 ^^^ x) &&& z)

/-- SHA-256 Maj. -/
def majF (x y z : Nat) : Nat := (x &&& y) ^^^ (x &&& z) ^^^ (y &&& z)

/-- The 64 SHA-256 round constants. -/
def sha256K : List Nat :=
  [1116352408, 1899447441, 3049323471, 3921009573,
   961987163, 1508970993, 2453635748, 2870763221,
   3624381080, 310598401, 607225278, 1426881987,
   1925078388, 2162078206, 2614888103, 3248222580,
   3835390401, 4022224774, 264347078, 604807628,
   770255983, 1249150122, 1555081692, 1996064986,
   2554220882, 2821834349, 2952996808, 3210313671,
   3336571891, 3584528711, 113926993, 338241895,
   666307205, 773529912, 1294757372, 1396182291,
   1695183700, 1986661051, 2177026350, 2456956037,
   2730485921, 2820302411, 3259730800, 3345764771,
   3516065817, 3600352804, 4094571909, 275423344,
   430227734, 506948616, 659060556, 883997877,
   958139571, 1322822218, 1537002063, 1747873779,
   1955562222, 2024104815, 2227730452, 2361852424,
   2428436474, 2756734187, 3204031479, 3329325298]

/-- The eight 32-bit working variables of the SHA-256 compression function. -/
structure H8 where
  a : Nat
  b : Nat
  c : Nat
  d : Nat
  e : Nat
  f : Nat
  g : Nat
  h : Nat

/-- The SHA-256 initial hash value. -/
def initH : H8 :=
  ⟨1779033703, 3144134277, 1013904242, 2773480762,
   1359893119, 2600822924, 528734635, 1541459225⟩

/-- Big-endian 32-bit words of a byte list. -/
def wordsOf : List Nat → List Nat
  | a :: b :: c :: d :: rest => (a * 16777216 + b * 65536 + c * 256 + d) :: wordsOf rest
  | _ => []

/-- Extend the message schedule by `n` words; the accumulator holds the
schedule so far, most recent word first. -/
def extendW : Nat → List Nat → List Nat
  | 0, ws => ws
  | n + 1, ws =>
    extendW n (w32 (ssig1 (ws.getD 1 0) + ws.getD 6 0 + ssig0 (ws.getD 14 0) + ws.getD 15 0) :: ws)

/-- The 64-word message schedule of one 64-byte block. -/
def schedule (block : List Nat) : List Nat :=
  (extendW 48 (wordsOf block).reverse).reverse

/-- One SHA-256 round; `kw` is the round constant plus the schedule word. -/
def stepRound (s : H8) (kw : Nat) : H8 :=
  let t1 := w32 (s.h + bsig1 s.e + chF s.e s.f s.g + kw)
  let t2 := w32 (bsig0 s.a + majF s.a s.b s.c)
  ⟨w32 (t1 + t2), s.a, s.b, s.c, w32 (s.d + t1), s.e, s.f, s.g⟩

/-- The SHA-256 compression function on one 64-byte block. -/
def compress (st : H8) (block : List Nat) : H8 :=
  let kw := List.zipWith (fun k w => w32 (k + w)) sha256K (schedule block)
  let r := kw.foldl stepRound st
  ⟨w32 (st.a + r.a), w32 (st.b + r.b), w32 (st.c + r.c), w32 (st.d + r.d),
   w32 (st.e + r.e), w32 (st.f + r.f), w32 (st.g + r.g), w32 (st.h + r.h)⟩

/-- Feed a padded byte stream to the compression function 64 bytes at a time;
the accumulator collects the current block in reverse. -/
def sha256Blocks : H8 → List Nat → List Nat → H8
  | st, [], _ => st
  | st, b :: rest, acc =>
    if acc.length = 63 then sha256Blocks (compress st (b :: acc).reverse) rest []
    else sha256Blocks st rest (b :: acc)

/-- SHA-256 padding: `0x80`, zeros to 56 mod 64, then the bit length as eight
big-endian bytes. -/
def padMsg (msg : List Nat) : List Nat :=
  let bl := 8 * msg.length
  msg ++ 0x80 :: List.replicate ((119 - msg.length % 64) % 64) 0 ++
    [bl / 72057594037927936 % 256, bl / 281474976710656 % 256, bl / 1099511627776 % 256,
     bl / 4294967296 % 256, bl / 16777216 % 256, bl / 65536 % 256, bl / 256 % 256, bl % 256]

/-- Big-endian bytes of a 32-bit word. -/
def wordBytes (w : Nat) : List Nat := [w / 16777216 % 256, w / 65536 % 256, w / 256 % 256, w % 256]

/-- The 32 digest bytes of a final SHA-256 state. -/
def stateBytes (s : H8) : List Nat :=
  wordBytes s.a ++ wordBytes s.b ++ wordBytes s.c ++ wordBytes s.d ++
  wordBytes s.e ++ wordBytes s.f ++ wordBytes s.g ++ wordBytes s.h

/-- SHA-256 of a byte list. -/
def sha256 (msg : List Nat) : List Nat := stateBytes (sha256Blocks initH (padMsg msg) [])

/-- Lower-case hex encoding of a byte list, as Python's `hexdigest()`. -/
def hexOfBytes (l : List Nat) : String :=
  ⟨l.flatMap fun b => [hexDig (b / 16 % 16), hexDig (b % 16)]⟩

/-- HMAC-SHA256 (RFC 2104): block size 64; a key longer than the block is
hashed first, then zero-padded. -/
def hmacSha256 (key msg : List Nat) : List Nat :=
  let k0 := if key.length > 64 then sha256 key else key
  let kp := k0 ++ List.replicate (64 - k0.length) 0
  sha256 ((kp.map fun b => b ^^^ 0x5c) ++ sha256 ((kp.map fun b => b ^^^ 0x36) ++ msg))

/-- Hex digest of HMAC-SHA256, as `hmac.new(key, msg, sha256).hexdigest()`. -/
def hmacSha256Hex (key msg : List Nat) : String := hexOfBytes (hmacSha256 key msg)

/-- UTF-8 encoding of one character. -/
def utf8Char (c : Char) : List Nat :=
  let n := c.toNat
  if n < 128 then [n]
  else if n < 2048 then [192 + n / 64, 128 + n % 64]
  else if n < 65536 then [224 + n / 4096, 128 + n / 64 % 64, 128 + n % 64]
  else [240 + n / 262144, 128 + n / 4096 % 64, 128 + n / 64 % 64, 128 + n % 64]

/-- UTF-8 encoding of a string, as Python's `str.encode("utf-8")`. -/
def utf8Bytes (s : String) : List Nat := s.data.flatMap utf8Char

/-- Whether every character of a string is ASCII (`str` values that
`hmac.compare_digest` accepts). -/
def isAsciiStr (s : String) : Bool :=
  s.data.all fun c => c.toNat < 128

/-- Python's `hmac.compare_digest` on two `str` arguments: it encodes both as
ASCII and raises `TypeError` when either contains a non-ASCII character;
otherwise it is equality, evaluated in constant time (the timing aspect has
no observable counterpart in a functional embedding). -/
def compare_digest (a b : String) : Except String Bool :=
  if isAsciiStr a && isAsciiStr b then .ok (a == b) else .error "TypeError"

/-- `verify_signature` of `src/app.py` lines 38-50 and `src/qpp.py` lines
11-24 (the two are semantically identical): with no secret configured the
check is skipped; otherwise the `X-Signature` header (absent modelled as
`none`, and `headers.get(…, "")` turning absence into `""`) is compared by
`hmac.compare_digest` to the hex HMAC-SHA256 of the raw body under the
secret.  The result is `Except`: WSGI delivers header values latin-1-decoded,
so a header containing bytes 0x80-0xFF reaches `compare_digest` as a
non-ASCII `str` and the comparison raises `TypeError` instead of returning. -/
def verify_signature (secret : String) (rawBody : List Nat) (xSignature : Option String) :
    Except String Bool :=
  if secret = "" then .ok true
  else
    let recvSig := xSignature.getD ""
    if recvSig = "" then .ok false
    else compare_digest (hmacSha256Hex (utf8Bytes secret) rawBody) recvSig

/-! ## Completion client

`ask_openai` performs one `requests.post`.  The outbound call is modelled by
passing its outcome in as a value: either the post raised (timeout, transport
error, too many redirects, …) or it produced a response with a status code
and a body (`none` when `r.json()` would raise).  `r.raise_for_status()`
raises exactly for status codes 400-599; the response-shape walk
`resp.get("choices", [{}])[0].get("message", {}).get("content", "").strip()`
raises on any non-dict/non-list/non-string step and on an empty `choices`
list, and every exception is caught by the surrounding `except Exception`
and converted to the string `"调用大模型失败：" + str(e)`.  Exception
message texts are embedded representatively (their exact wording is
irrelevant to every claim). -/

/-- Outcome of the outbound `requests.post` call. -/
inductive Upstream where
  | exc : String → Upstream
  | resp : Nat → Option JValue → Upstream

/-- The fixed leading text of the failure answer `f"调用大模型失败：{e}"`. -/
def failTag : String := "调用大模型失败："

/-- Representative message of the `requests.HTTPError` raised by
`raise_for_status` for a 4xx/5xx status. -/
def httpErrMsg (st : Nat) : String := toString st ++ " Error"

/-- The response-shape walk
`resp.get("choices", [{}])[0].get("message", {}).get("content", "").strip()`,
with `Except.error` for the exceptions Python raises on unexpected shapes
(`resp` not a dict, `choices` not a list or empty, an element or `message`
not a dict, `content` not a string). -/
def getContent (resp : JValue) : Except String String :=
  match resp with
  | .obj fs =>
    match (pyGet fs "choices").getD (.arr [.obj []]) with
    | .arr [] => .error "IndexError"
    | .arr (c0 :: _) =>
      match c0 with
      | .obj cf =>
        match (pyGet cf "message").getD (.obj []) with
        | .obj mf =>
          match (pyGet mf "content").getD (.str "") with
          | .str s => .ok (pyStrip s)
          | _ => .error "AttributeError"
        | _ => .error "AttributeError"
      | _ => .error "AttributeError"
    | _ => .error "TypeError"
  | _ => .error "AttributeError"

/-- The `try` block of `ask_openai` shared by both files (app.py lines 74-100,
qpp.py lines 38-47): raise-for-status, parse the body, walk the shape, and
turn any exception into the `调用大模型失败` answer; an empty stripped
content becomes `"（无回复）"`. -/
def askCore (up : Upstream) : String :=
  match up with
  | .exc m => failTag ++ m
  | .resp st body =>
    if 400 ≤ st && st < 600 then failTag ++ httpErrMsg st
    else
      match body with
      | none => failTag ++ "JSONDecodeError"
      | some v =>
        match getContent v with
        | .error m => failTag ++ m
        | .ok s => if s = "" then "（无回复）" else s

/-- `ask_openai` of `src/app.py` (lines 70-100): echo when no API key is
configured, otherwise the shared completion call. -/
def ask_openai_app (keySet : Bool) (prompt : String) (up : Upstream) : String :=
  if keySet then askCore up else "你说的是：" ++ prompt

/-- `ask_openai` of `src/qpp.py` (lines 26-47): always performs the call (the
caller checks the key). -/
def ask_openai_qpp (_prompt : String) (up : Upstream) : String :=
  askCore up

/-! ## Callback handlers

`wechat_callback` in both files.  The raw body bytes and the parsed JSON are
independent inputs of the embedding (`jsonBody = none` models a body Flask's
`get_json` cannot parse).  The result is `Except.error` when an exception
escapes the handler (Flask then produces a 500), and `.ok (status, body)`
for a returned response. -/

/-- The 401 response body `{"code": 401, "msg": "invalid signature"}`. -/
def err401 : JValue := .obj [("code", .num 401), ("msg", .str "invalid signature")]

/-- The `body = request.get_json(...) or {}` resolution: an unparseable or
falsy body becomes the empty dict. -/
def resolveBody : Option JValue → JValue
  | none => .obj []
  | some v => if truthy v then v else .obj []

/-- `wechat_callback` of `src/app.py` (lines 111-132): verify the signature
(secret, raw bytes, `X-Signature` header), fall back to `{}` on bad JSON
(`silent=True`), extract and truncate the query to 2000 characters, reply
diagnostically if it is empty, otherwise ask the completion client and
truncate the answer to `MAX_REPLY_LEN` (default 1500). -/
def wechat_callback_app (raw : List Nat) (xSig : Option String) (secret : String)
    (jsonBody : Option JValue) (keySet : Bool) (up : Upstream) (maxReplyLen : Nat) :
    Except String (Nat × JValue) :=
  match verify_signature secret raw xSig with
  | .error e => .error e
  | .ok false => .ok (401, err401)
  | .ok true =>
    match resolveBody jsonBody with
    | .obj fs =>
      match extract_user_query_app fs with
      | .error e => .error e
      | .ok q0 =>
        let userQuery := pySlice q0 2000
        if userQuery = "" then .ok (200, .obj [("text", .str "（没有拿到输入）")])
        else .ok (200, .obj [("text", .str (pySlice (ask_openai_app keySet userQuery up) maxReplyLen))])
    | _ => .error "AttributeError"

/-- `wechat_callback` of `src/qpp.py` (lines 67-101): verify the signature,
reject bad JSON with 400 (`silent=False` inside `try`), extract and truncate
the query to 2000 characters, reject an empty query with 400, answer with the
fixed `"未配置 OPENAI_API_KEY"` string when no key is configured, otherwise
call the completion client and truncate to 1500; the 200 response carries a
debug `meta` object. -/
def wechat_callback_qpp (raw : List Nat) (xSig : Option String) (secret : String)
    (jsonBody : Option JValue) (keySet : Bool) (up : Upstream) :
    Except String (Nat × JValue) :=
  match verify_signature secret raw xSig with
  | .error e => .error e
  | .ok false => .ok (401, err401)
  | .ok true =>
    match jsonBody with
    | none => .ok (400, .obj [("code", .num 400), ("msg", .str "bad json")])
    | some v =>
      match resolveBody (some v) with
      | .obj fs =>
        match extract_user_query_qpp fs with
        | .error e => .error e
        | .ok q0 =>
          let userQuery := pySlice q0 2000
          if userQuery = "" then .ok (400, .obj [("code", .num 400), ("msg", .str "empty query")])
          else
            let answer := if keySet then pySlice (ask_openai_qpp userQuery up) 1500
                          else "未配置 OPENAI_API_KEY"
            .ok (200, .obj [("text", .str answer),
              ("meta", .obj [("echo", .str userQuery), ("model", .str "gpt-4o-mini")])])
      | _ => .error "AttributeError"

/-- Field access on a response body. -/
def getField (v : JValue) (k : String) : Option JValue :=
  match v with
  | .obj fs => pyGet fs k
  | _ => none

/-- Whether the upstream outcome makes the `try` block of `ask_openai` raise:
the post itself raised, the status is 4xx/5xx, the body is unparseable, or
the response-shape walk fails. -/
def askFailsB (up : Upstream) : Bool :=
  match up with
  | .exc _ => true
  | .resp st body =>
    if 400 ≤ st && st < 600 then true
    else
      match body with
      | none => true
      | some v =>
        match getContent v with
        | .error _ => true
        | .ok _ => false

/-- Status code of a handler result (0 for an escaped exception); used to
discriminate response branches in proofs. -/
def respSt : Except String (Nat × JValue) → Nat
  | .ok (st, _) => st
  | .error _ => 0

/-- The `msg` field of a handler result's body (empty when absent); used to
discriminate response branches in proofs. -/
def respMsg : Except String (Nat × JValue) → String
  | .ok (_, b) =>
    match getField b "msg" with
    | some (.str s) => s
    | _ => ""
  | .error _ => ""

/-! ## Helper lemmas -/

/-- Validation of the SHA-256 embedding on the FIPS 180-4 "abc" vector. -/
theorem sha256_abc_vector :
    hexOfBytes (sha256 (utf8Bytes "abc")) =
      "ba7816bf8f01cfea414140de5dae2223b00361a396177a9cb410ff61f20015ad" := by
  decide

/-- Validation of the HMAC embedding on RFC 4231 test case 2. -/
theorem hmac_jefe_vector :
    hmacSha256Hex (utf8Bytes "Jefe") (utf8Bytes "what do ya want for nothing?") =
      "5bdcc146bf60754e6a042426089575c75a003f089d2739839dec58b964ec3843" := by
  decide

/-- A string of positive length is not the empty string. -/
theorem ne_empty_of_len_pos (s : String) (h : 0 < s.length) : s ≠ "" := by
  intro he
  rw [he] at h
  simp at h

/-- A string built from a non-empty character list is not empty. -/
theorem mk_ne_empty (l : List Char) (h : l ≠ []) : String.mk l ≠ "" := by
  intro he
  apply h
  have := congrArg String.data he
  simpa using this

/-- The extraction loop only ever returns a non-empty string. -/
theorem loopCand_ne_empty (cs : List (Option JValue)) (s : String)
    (h : loopCand cs = some s) : s ≠ "" := by
  induction cs with
  | nil => simp [loopCand] at h
  | cons c rest ih =>
    match c with
    | none => exact ih (by simpa [loopCand] using h)
    | some .null => exact ih (by simpa [loopCand] using h)
    | some (.bool b) => exact ih (by simpa [loopCand] using h)
    | some (.num n) => exact ih (by simpa [loopCand] using h)
    | some (.arr xs) => exact ih (by simpa [loopCand] using h)
    | some (.obj fs) => exact ih (by simpa [loopCand] using h)
    | some (.str t) =>
      rw [loopCand] at h
      by_cases ht : pyStrip t = ""
      · exact ih (by simpa [ht] using h)
      · rw [if_neg ht] at h
        cases h
        exact ht

/-- Appending is additive on string length. -/
theorem len_append (a b : String) : (a ++ b).length = a.length + b.length := by
  cases a with
  | mk la =>
    cases b with
    | mk lb =>
      show (String.mk (la ++ lb)).length = _
      simp [String.length]

/-- The JSON serialization of an object payload is non-empty (it is at least
`"{}"`). -/
theorem jsonDump_obj_len (fs : List (String × JValue)) :
    0 < (jsonDumpV (.obj fs)).length := by
  rw [jsonDumpV]
  rw [len_append, len_append]
  have h1 : (0 : Nat) < ("\x7b" : String).length := by decide
  omega

/-- Length of a Python slice. -/
theorem pySlice_len (s : String) (n : Nat) : (pySlice s n).length = min n s.length := by
  cases s with
  | mk l =>
    show (String.mk (l.take n)).length = _
    simp [String.length]

/-- A non-empty string has positive length. -/
theorem len_pos_of_ne_empty (s : String) (hs : s ≠ "") : 0 < s.length := by
  cases s with
  | mk l =>
    cases l with
    | nil => exact absurd rfl hs
    | cons c t => simp [String.length]

/-- A slice of positive width of a non-empty string is non-empty. -/
theorem pySlice_ne_empty (s : String) (n : Nat) (hn : 0 < n) (hs : s ≠ "") :
    pySlice s n ≠ "" := by
  apply ne_empty_of_len_pos
  rw [pySlice_len]
  have := len_pos_of_ne_empty s hs
  omega

/-- When the app extractor returns, its result is non-empty: either a stripped
candidate that passed the non-emptiness test, or the serialization of the
payload, which is at least `"{}"`. -/
theorem extract_app_ne_empty (fs : List (String × JValue)) (q : String)
    (h : extract_user_query_app fs = .ok q) : q ≠ "" := by
  rw [extract_user_query_app] at h
  cases hc : candidates_app fs with
  | error e => rw [hc] at h; cases h
  | ok cs =>
    rw [hc] at h
    have h' : (match loopCand cs with
      | some s => Except.ok s
      | none => Except.ok (jsonDumpV (JValue.obj fs))) = Except.ok (ε := String) q := h
    cases hl : loopCand cs with
    | some s =>
      rw [hl] at h'
      cases h'
      exact loopCand_ne_empty cs q hl
    | none =>
      rw [hl] at h'
      cases h'
      exact ne_empty_of_len_pos _ (jsonDump_obj_len fs)

/-- When the qpp extractor returns, its result is non-empty. -/
theorem extract_qpp_ne_empty (fs : List (String × JValue)) (q : String)
    (h : extract_user_query_qpp fs = .ok q) : q ≠ "" := by
  rw [extract_user_query_qpp] at h
  cases hc : candidates_qpp fs with
  | error e => rw [hc] at h; cases h
  | ok cs =>
    rw [hc] at h
    have h' : (match loopCand cs with
      | some s => Except.ok s
      | none => Except.ok (jsonDumpV (JValue.obj fs))) = Except.ok (ε := String) q := h
    cases hl : loopCand cs with
    | some s =>
      rw [hl] at h'
      cases h'
      exact loopCand_ne_empty cs q hl
    | none =>
      rw [hl] at h'
      cases h'
      exact ne_empty_of_len_pos _ (jsonDump_obj_len fs)

/-- Under a safe parent value the code's `(… or {}).get("text")` agrees with
the spec's defensive nested lookup and cannot raise. -/
theorem orEmptyGet_safe (fs : List (String × JValue)) (p : String)
    (h : safeParentB (pyGet fs p) = true) :
    orEmptyGet fs p = .ok (specLookup fs p) := by
  cases hp : pyGet fs p with
  | none => simp [orEmptyGet, specLookup, hp, pyGet]
  | some v =>
    rw [hp] at h
    cases v with
    | obj g =>
      by_cases hg : truthy (JValue.obj g) = true
      · simp [orEmptyGet, specLookup, hp, hg]
      · have hnil : g = [] := by
          rw [truthy] at hg
          simpa using hg
        subst hnil
        simp [orEmptyGet, specLookup, hp, truthy, pyGet]
    | null => simp [orEmptyGet, specLookup, hp, truthy, pyGet]
    | bool b =>
      have hb : b = false := by
        simpa [safeParentB, truthy, isObjB] using h
      subst hb
      simp [orEmptyGet, specLookup, hp, truthy, pyGet]
    | num n =>
      have hn : n = 0 := by
        simpa [safeParentB, truthy, isObjB] using h
      subst hn
      simp [orEmptyGet, specLookup, hp, truthy, pyGet]
    | str s =>
      have hs : s = "" := by
        simpa [safeParentB, truthy, isObjB] using h
      subst hs
      simp [orEmptyGet, specLookup, hp, truthy, pyGet]
    | arr xs =>
      have hx : xs = [] := by
        simpa [safeParentB, truthy, isObjB] using h
      subst hx
      simp [orEmptyGet, specLookup, hp, truthy, pyGet]

/-- Under safe parents the app candidate list is computed without error and
has the spec's values. -/
theorem candidates_app_safe (fs : List (String × JValue))
    (h : parentsSafeB fs = true) :
    candidates_app fs = .ok [pyGet fs "query", pyGet fs "text", pyGet fs "content",
      specLookup fs "message", specLookup fs "nlpResult"] := by
  rw [parentsSafeB, Bool.and_eq_true] at h
  rw [candidates_app, orEmptyGet_safe fs "message" h.1, orEmptyGet_safe fs "nlpResult" h.2]
  rfl

/-- Under safe parents the qpp candidate list is computed without error and
has the spec's values, nested candidates swapped. -/
theorem candidates_qpp_safe (fs : List (String × JValue))
    (h : parentsSafeB fs = true) :
    candidates_qpp fs = .ok [pyGet fs "query", pyGet fs "text", pyGet fs "content",
      specLookup fs "nlpResult", specLookup fs "message"] := by
  rw [parentsSafeB, Bool.and_eq_true] at h
  rw [candidates_qpp, orEmptyGet_safe fs "nlpResult" h.2, orEmptyGet_safe fs "message" h.1]
  rfl

/-- The spec's first-match search and the code's loop are the same function. -/
theorem specFirstMatch_eq_loopCand (l : List (Option JValue)) :
    specFirstMatch l = loopCand l := by
  induction l with
  | nil => rfl
  | cons c rest ih =>
    match c with
    | none => simpa [specFirstMatch, loopCand] using ih
    | some .null => simpa [specFirstMatch, loopCand] using ih
    | some (.bool b) => simpa [specFirstMatch, loopCand] using ih
    | some (.num n) => simpa [specFirstMatch, loopCand] using ih
    | some (.arr xs) => simpa [specFirstMatch, loopCand] using ih
    | some (.obj g) => simpa [specFirstMatch, loopCand] using ih
    | some (.str s) =>
      rw [specFirstMatch, loopCand]
      by_cases hs : pyStrip s = ""
      · simp [hs, ih]
      · simp [hs]

/-- A candidate that does not qualify is skipped by the loop. -/
theorem loopCand_cons_fail (c : Option JValue) (rest : List (Option JValue))
    (h : qualifies c = false) : loopCand (c :: rest) = loopCand rest := by
  match c with
  | none => rfl
  | some .null => rfl
  | some (.bool b) => rfl
  | some (.num n) => rfl
  | some (.arr xs) => rfl
  | some (.obj g) => rfl
  | some (.str s) =>
    rw [qualifies] at h
    simp at h
    simp [loopCand, h]

/-- A string starts with any string it extends on the right. -/
theorem listStarts_append (a b : List Char) : listStarts (a ++ b) a = true := by
  induction a with
  | nil => cases b <;> rfl
  | cons c t ih => simpa [listStarts] using ih

/-- A concatenation starts with its left part. -/
theorem strStarts_append (a b : String) : strStarts (a ++ b) a = true := by
  cases a with
  | mk la =>
    cases b with
    | mk lb =>
      show listStarts (la ++ lb) la = true
      exact listStarts_append la lb

/-- The hex digest of any HMAC-SHA256 is never the empty string (it always
has 64 characters). -/
theorem hmacSha256Hex_ne_empty (key msg : List Nat) : hmacSha256Hex key msg ≠ "" := by
  rw [hmacSha256Hex, hmacSha256]
  apply mk_ne_empty
  rw [sha256, stateBytes]
  simp [wordBytes]

/-! ## Claims -/

/-- C1, counterexample: on the payload
`{"message": {"text": "a"}, "nlpResult": {"text": "b"}}` the qpp extractor
returns `"b"`, although the claim's fixed order (`message.text` before
`nlpResult.text`) demands `"a"`: `src/qpp.py` checks `nlpResult.text` first. -/
theorem extract_qpp_order_counterexample :
    extract_user_query_qpp
      [("message", .obj [("text", .str "a")]), ("nlpResult", .obj [("text", .str "b")])] =
      .ok "b" ∧ ("b" : String) ≠ "a" := by
  exact ⟨rfl, by decide⟩

/-- C1 (amended): for every payload whose `message` and `nlpResult` values are
absent, falsy or objects — so the candidate computation cannot raise — each
extractor returns the first candidate in its fixed order that is a string and
non-empty after trimming, trimmed; the order ends `message.text` then
`nlpResult.text` in `src/app.py` and `nlpResult.text` then `message.text` in
`src/qpp.py`. -/
theorem extract_user_query_priority (fs : List (String × JValue))
    (h : parentsSafeB fs = true) (s : String) :
    (specPickApp fs = some s → extract_user_query_app fs = .ok s) ∧
    (specPickQpp fs = some s → extract_user_query_qpp fs = .ok s) := by
  constructor
  · intro hp
    rw [specPickApp, specFirstMatch_eq_loopCand] at hp
    rw [extract_user_query_app, candidates_app_safe fs h]
    simp only [hp]
  · intro hp
    rw [specPickQpp, specFirstMatch_eq_loopCand] at hp
    rw [extract_user_query_qpp, candidates_qpp_safe fs h]
    simp only [hp]

/-- C1, witness: on `{"message": {"text": " weather today "}}` the spec-order
pick and the app extractor agree on `"weather today"`. -/
theorem extract_user_query_priority_witness :
    extract_user_query_app [("message", .obj [("text", .str " weather today ")])] =
      .ok "weather today" :=
  (extract_user_query_priority [("message", .obj [("text", .str " weather today ")])]
    (by decide) "weather today").1 (by decide)

/-- C2, counterexample: with `message` bound to the truthy non-object `"x"`,
the nested lookup `(payload.get("message") or {}).get("text")` raises
`AttributeError` instead of treating the candidate as absent. -/
theorem nested_lookup_raises :
    orEmptyGet [("message", .str "x")] "message" = .error "AttributeError" := rfl

/-- C2 (amended): the nested lookup returns without error exactly when the
parent value is absent, falsy, or an object; a truthy non-object parent (a
non-empty string, non-zero number, non-empty array, `true`) raises. -/
theorem orEmptyGet_error_free_iff (fs : List (String × JValue)) (k : String) :
    (∃ r, orEmptyGet fs k = .ok r) ↔ safeParentB (pyGet fs k) = true := by
  constructor
  · rintro ⟨r, hr⟩
    cases hp : pyGet fs k with
    | none => rfl
    | some v =>
      rw [orEmptyGet, hp] at hr
      have hr' : (match (if truthy v = true then v else JValue.obj []) with
        | JValue.obj g => Except.ok (pyGet g "text")
        | _ => Except.error (ε := String) "AttributeError") = Except.ok r := hr
      by_cases ht : truthy v = true
      · rw [if_pos ht] at hr'
        cases v with
        | obj g => simp [safeParentB, isObjB]
        | null => cases hr'
        | bool b => cases hr'
        | num n => cases hr'
        | str s => cases hr'
        | arr xs => cases hr'
      · have ht' : truthy v = false := by
          cases hv : truthy v
          · rfl
          · exact absurd hv ht
        rw [safeParentB, ht']
        simp
  · intro h
    exact ⟨specLookup fs k, orEmptyGet_safe fs k h⟩

/-- Every hex digit character is ASCII. -/
theorem hexDig_ascii : ∀ n : Nat, (hexDig n).toNat < 128
  | 0 => by decide
  | 1 => by decide
  | 2 => by decide
  | 3 => by decide
  | 4 => by decide
  | 5 => by decide
  | 6 => by decide
  | 7 => by decide
  | 8 => by decide
  | 9 => by decide
  | 10 => by decide
  | 11 => by decide
  | 12 => by decide
  | 13 => by decide
  | 14 => by decide
  | 15 => by decide
  | n + 16 => by
    show (102 : Nat) < 128
    decide

/-- The hex encoding of any byte list is all-ASCII. -/
theorem isAscii_hexOfBytes (l : List Nat) : isAsciiStr (hexOfBytes l) = true := by
  rw [isAsciiStr, List.all_eq_true]
  intro c hc
  have hc' : c ∈ l.flatMap fun b => [hexDig (b / 16 % 16), hexDig (b % 16)] := hc
  rw [List.mem_flatMap] at hc'
  obtain ⟨b, -, hcb⟩ := hc'
  simp only [List.mem_cons, List.not_mem_nil, or_false] at hcb
  rcases hcb with rfl | rfl
  · exact decide_eq_true (hexDig_ascii _)
  · exact decide_eq_true (hexDig_ascii _)

/-- A hex HMAC digest is all-ASCII, so comparing it against an ASCII header
cannot raise. -/
theorem isAscii_hmacHex (k m : List Nat) : isAsciiStr (hmacSha256Hex k m) = true :=
  isAscii_hexOfBytes _

/-- C3, counterexample: with a secret configured and a non-ASCII header value
(reachable because WSGI delivers header bytes latin-1-decoded),
`hmac.compare_digest` raises `TypeError` — which escapes the handler as an
HTTP 500 — instead of verification returning false as the claim's fourth
case states. -/
theorem verify_signature_non_ascii :
    verify_signature "s" [] (some "é") = .error "TypeError" := rfl

/-- C3 (amended): with no secret configured verification returns true for
every body and header; with a secret configured it returns true exactly for
the header equal to the hex HMAC-SHA256 digest of the body under the UTF-8
secret; it raises `TypeError` exactly for a non-empty header containing a
non-ASCII character; and it returns false in the remaining cases — an absent
or empty header (a digest is never empty), or an ASCII header different from
the digest. -/
theorem verify_signature_spec (secret : String) (rawBody : List Nat)
    (xSignature : Option String) :
    (verify_signature secret rawBody xSignature = .ok true ↔
      (secret = "" ∨ xSignature = some (hmacSha256Hex (utf8Bytes secret) rawBody))) ∧
    (verify_signature secret rawBody xSignature = .error "TypeError" ↔
      (secret ≠ "" ∧ ∃ t, xSignature = some t ∧ t ≠ "" ∧ isAsciiStr t = false)) ∧
    (verify_signature secret rawBody xSignature = .ok false ↔
      (secret ≠ "" ∧ (xSignature.getD "" = "" ∨
        ∃ t, xSignature = some t ∧ isAsciiStr t = true ∧
          t ≠ hmacSha256Hex (utf8Bytes secret) rawBody))) := by
  by_cases hs : secret = ""
  · refine ⟨?_, ?_, ?_⟩
    · simp [verify_signature, hs]
    · simp [verify_signature, hs]
    · simp [verify_signature, hs]
  · cases xSignature with
    | none =>
      have hv : verify_signature secret rawBody none = .ok false := by
        simp [verify_signature, hs]
      rw [hv]
      refine ⟨?_, ?_, ?_⟩
      · constructor
        · intro h
          cases h
        · rintro (h1 | h1)
          · exact absurd h1 hs
          · cases h1
      · constructor
        · intro h
          cases h
        · rintro ⟨-, t, ht', -, -⟩
          cases ht'
      · constructor
        · intro _
          exact ⟨hs, Or.inl rfl⟩
        · intro _
          rfl
    | some t =>
      by_cases ht : t = ""
      · subst ht
        have hv : verify_signature secret rawBody (some "") = .ok false := by
          simp [verify_signature, hs]
        rw [hv]
        refine ⟨?_, ?_, ?_⟩
        · constructor
          · intro h
            cases h
          · rintro (h1 | h1)
            · exact absurd h1 hs
            · injection h1 with h2
              exact absurd h2.symm (hmacSha256Hex_ne_empty _ _)
        · constructor
          · intro h
            cases h
          · rintro ⟨-, t', ht', htne, -⟩
            injection ht' with h2
            exact absurd h2.symm htne
        · constructor
          · intro _
            exact ⟨hs, Or.inl rfl⟩
          · intro _
            rfl
      · by_cases hA : isAsciiStr t = true
        · have hv : verify_signature secret rawBody (some t) =
              .ok (hmacSha256Hex (utf8Bytes secret) rawBody == t) := by
            simp [verify_signature, hs, ht, compare_digest, isAscii_hmacHex, hA]
          rw [hv]
          refine ⟨?_, ?_, ?_⟩
          · constructor
            · intro h
              injection h with h2
              right
              rw [eq_of_beq h2]
            · rintro (h1 | h1)
              · exact absurd h1 hs
              · injection h1 with h2
                subst h2
                rw [beq_self_eq_true]
          · constructor
            · intro h
              cases h
            · rintro ⟨-, t', ht', -, hA'⟩
              injection ht' with h2
              subst h2
              exact absurd hA' (by simp [hA])
          · constructor
            · intro h
              injection h with h2
              refine ⟨hs, Or.inr ⟨t, rfl, hA, fun he => ?_⟩⟩
              rw [he] at h2
              simp at h2
            · rintro ⟨-, h1 | ⟨t', ht', -, hne⟩⟩
              · exact absurd h1 ht
              · injection ht' with h2
                subst h2
                have hf : (hmacSha256Hex (utf8Bytes secret) rawBody == t) = false :=
                  beq_eq_false_iff_ne.mpr fun hdt => hne hdt.symm
                rw [hf]
        · have hA' : isAsciiStr t = false := by
            cases hq : isAsciiStr t
            · rfl
            · exact absurd hq hA
          have hv : verify_signature secret rawBody (some t) = .error "TypeError" := by
            simp [verify_signature, hs, ht, compare_digest, hA']
          rw [hv]
          refine ⟨?_, ?_, ?_⟩
          · constructor
            · intro h
              cases h
            · rintro (h1 | h1)
              · exact absurd h1 hs
              · injection h1 with h2
                rw [h2] at hA'
                rw [isAscii_hmacHex] at hA'
                exact Bool.noConfusion hA' 
          · constructor
            · intro _
              exact ⟨hs, t, rfl, ht, hA'⟩
            · intro _
              rfl
          · constructor
            · intro h
              cases h
            · rintro ⟨-, h1 | ⟨t', ht', hA2, -⟩⟩
              · exact absurd h1 ht
              · injection ht' with h2
                subst h2
                exact absurd hA2 hA

/-- C5: whenever signature verification returns false, both handlers answer
401 with exactly `{"code": 401, "msg": "invalid signature"}`, whatever the
parsed body, the key configuration and the upstream outcome are — so no body
parsing, query extraction or completion call can influence the response. -/
theorem invalid_signature_401 (raw : List Nat) (xSig : Option String) (secret : String)
    (jb : Option JValue) (key : Bool) (up : Upstream) (m : Nat)
    (hv : verify_signature secret raw xSig = .ok false) :
    wechat_callback_app raw xSig secret jb key up m = .ok (401, err401) ∧
    wechat_callback_qpp raw xSig secret jb key up = .ok (401, err401) := by
  rw [wechat_callback_app.eq_def, wechat_callback_qpp.eq_def, hv]
  simp

/-- C5, witness: with secret `"s"` and no header, both handlers answer 401. -/
theorem invalid_signature_401_witness :
    wechat_callback_app [] none "s" none false (.exc "e") 1500 = .ok (401, err401) ∧
    wechat_callback_qpp [] none "s" none false (.exc "e") = .ok (401, err401) :=
  invalid_signature_401 [] none "s" none false (.exc "e") 1500 rfl

/-- The loop returns nothing when no candidate qualifies. -/
theorem loopCand_all_fail (l : List (Option JValue))
    (h : ∀ c ∈ l, qualifies c = false) : loopCand l = none := by
  induction l with
  | nil => rfl
  | cons c rest ih =>
    rw [loopCand_cons_fail c rest (h c (List.mem_cons_self c rest))]
    exact ih fun c' hc' => h c' (List.mem_cons_of_mem c hc')

/-- C6, counterexample: on the payload `{"nlpResult": 7}` no candidate
location holds a string, yet extraction raises `AttributeError` instead of
returning the serialization of the payload. -/
theorem extract_fallback_raises :
    extract_user_query_app [("nlpResult", .num 7)] = .error "AttributeError" := rfl

/-- C6 (amended): for every payload whose `message` and `nlpResult` values
are absent, falsy or objects, if no candidate location holds a string that is
non-empty after trimming then both extractors return
`json.dumps(payload, ensure_ascii=False)`. -/
theorem extract_fallback_serialization (fs : List (String × JValue))
    (h : parentsSafeB fs = true) (hn : noCandB fs = true) :
    extract_user_query_app fs = .ok (jsonDumpV (.obj fs)) ∧
    extract_user_query_qpp fs = .ok (jsonDumpV (.obj fs)) := by
  rw [noCandB] at hn
  simp only [Bool.not_or, Bool.and_eq_true, Bool.not_eq_true'] at hn
  obtain ⟨⟨⟨⟨h1, h2⟩, h3⟩, h4⟩, h5⟩ := hn
  constructor
  · rw [extract_user_query_app, candidates_app_safe fs h]
    have hl : loopCand [pyGet fs "query", pyGet fs "text", pyGet fs "content",
        specLookup fs "message", specLookup fs "nlpResult"] = none := by
      apply loopCand_all_fail
      intro c hc
      simp only [List.mem_cons, List.not_mem_nil, or_false] at hc
      rcases hc with rfl | rfl | rfl | rfl | rfl
      · exact h1
      · exact h2
      · exact h3
      · exact h4
      · exact h5
    simp only [hl]
  · rw [extract_user_query_qpp, candidates_qpp_safe fs h]
    have hl : loopCand [pyGet fs "query", pyGet fs "text", pyGet fs "content",
        specLookup fs "nlpResult", specLookup fs "message"] = none := by
      apply loopCand_all_fail
      intro c hc
      simp only [List.mem_cons, List.not_mem_nil, or_false] at hc
      rcases hc with rfl | rfl | rfl | rfl | rfl
      · exact h1
      · exact h2
      · exact h3
      · exact h5
      · exact h4
    simp only [hl]

/-- C6, witness: on `{"a": 1}` both extractors fall back to the payload's
serialization. -/
theorem extract_fallback_serialization_witness :
    extract_user_query_app [("a", .num 1)] = .ok (jsonDumpV (.obj [("a", .num 1)])) :=
  (extract_fallback_serialization [("a", .num 1)] (by decide) (by decide)).1

/-- Validation of the serializer on that payload: Python renders
`json.dumps({"a": 1}, ensure_ascii=False)` as `'{"a": 1}'`. -/
theorem jsonDump_example : jsonDumpV (.obj [("a", .num 1)]) = "\x7b\"a\": 1\x7d" := rfl

/-- C7: the query string the handlers derive from a successful extraction is
the 2000-character slice, whose length never exceeds 2000; and slicing to any
width `N` is a prefix operation — the original character data extends the
slice's. -/
theorem query_truncation (fs : List (String × JValue)) (q : String) (N : Nat)
    (_h : extract_user_query_app fs = .ok q ∨ extract_user_query_qpp fs = .ok q) :
    (pySlice q 2000).length ≤ 2000 ∧ ∃ rest, q.data = (pySlice q N).data ++ rest := by
  constructor
  · rw [pySlice_len]
    exact Nat.min_le_left _ _
  · exact ⟨q.data.drop N, (List.take_append_drop N q.data).symm⟩

/-- C7, witness: on `{"text": "hello"}` with `N = 3`. -/
theorem query_truncation_witness :
    (pySlice "hello" 2000).length ≤ 2000 ∧
    ∃ rest, ("hello" : String).data = (pySlice "hello" 3).data ++ rest :=
  query_truncation [("text", .str "hello")] "hello" 3 (Or.inl rfl)

/-- The answer of a failed completion call starts with the fixed
`调用大模型失败：` failure description text. -/
theorem askCore_fail_starts (up : Upstream) (hf : askFailsB up = true) :
    strStarts (askCore up) failTag = true := by
  cases up with
  | exc msg => exact strStarts_append failTag msg
  | resp st body =>
    by_cases hst : (400 ≤ st && st < 600) = true
    · have he : askCore (.resp st body) = failTag ++ httpErrMsg st := by
        simp [askCore, hst]
      rw [he]
      exact strStarts_append _ _
    · have hst' : (400 ≤ st && st < 600) = false := by
        cases hc : (400 ≤ st && st < 600)
        · rfl
        · exact absurd hc hst
      cases body with
      | none =>
        have he : askCore (.resp st none) = failTag ++ "JSONDecodeError" := by
          simp [askCore, hst']
        rw [he]
        exact strStarts_append _ _
      | some v =>
        cases hg : getContent v with
        | error msg =>
          have he : askCore (.resp st (some v)) = failTag ++ msg := by
            simp [askCore, hst', hg]
          rw [he]
          exact strStarts_append _ _
        | ok s =>
          exfalso
          have hf' : askFailsB (.resp st (some v)) = true := hf
          simp [askFailsB, hst', hg] at hf'

/-- The app handler's main path: valid signature, body resolving to an
object, successful extraction — the response is 200 with the truncated
completion answer. -/
theorem app_main_path (raw : List Nat) (xSig : Option String) (secret : String)
    (jb : Option JValue) (key : Bool) (up : Upstream) (m : Nat)
    (fs : List (String × JValue)) (q : String)
    (hv : verify_signature secret raw xSig = .ok true)
    (hb : resolveBody jb = .obj fs)
    (hx : extract_user_query_app fs = .ok q) :
    wechat_callback_app raw xSig secret jb key up m =
      .ok (200, .obj [("text", .str (pySlice (ask_openai_app key (pySlice q 2000) up) m))]) := by
  have hne : pySlice q 2000 ≠ "" :=
    pySlice_ne_empty q 2000 (by norm_num) (extract_app_ne_empty fs q hx)
  simp [wechat_callback_app.eq_def, hv, hb, hx, hne]

/-- The qpp handler's main path: valid signature, parseable body resolving to
an object, successful extraction — the response is 200 with the answer and
the debug `meta` object. -/
theorem qpp_main_path (raw : List Nat) (xSig : Option String) (secret : String)
    (v : JValue) (key : Bool) (up : Upstream)
    (fs : List (String × JValue)) (q : String)
    (hv : verify_signature secret raw xSig = .ok true)
    (hb : resolveBody (some v) = .obj fs)
    (hx : extract_user_query_qpp fs = .ok q) :
    wechat_callback_qpp raw xSig secret (some v) key up =
      .ok (200, .obj [("text", .str (if key then pySlice (ask_openai_qpp (pySlice q 2000) up) 1500
                                     else "未配置 OPENAI_API_KEY")),
        ("meta", .obj [("echo", .str (pySlice q 2000)), ("model", .str "gpt-4o-mini")])]) := by
  have hne : pySlice q 2000 ≠ "" :=
    pySlice_ne_empty q 2000 (by norm_num) (extract_qpp_ne_empty fs q hx)
  simp [wechat_callback_qpp.eq_def, hv, hb, hx, hne]

/-- C4, counterexample: a response with non-2xx status 301 and a well-formed
body is not treated as a failure — `raise_for_status` only raises for
statuses 400-599 — so the client returns the body's content `"hi"`, not an
answer string describing a failure. -/
theorem ask_openai_non2xx :
    ask_openai_app true "q" (.resp 301 (some (.obj [("choices",
      .arr [.obj [("message", .obj [("content", .str "hi")])]])]))) = "hi" ∧
    strStarts "hi" failTag = false := ⟨rfl, rfl⟩

/-- C4 (amended): for every upstream completion failure the code actually
catches — the post raising (timeout, transport error), a 4xx/5xx status, an
unparseable body, or a body the response-shape walk rejects — the completion
client returns an answer string starting with the fixed failure description
`调用大模型失败：` rather than raising, and on the main path both callback
handlers respond with HTTP 200 carrying that (truncated) text in `text`. -/
theorem upstream_failure_soft (raw : List Nat) (xSig : Option String) (secret : String)
    (v : JValue) (up : Upstream) (m : Nat) (fs : List (String × JValue)) (qa qq : String)
    (hv : verify_signature secret raw xSig = .ok true)
    (hb : resolveBody (some v) = .obj fs)
    (ha : extract_user_query_app fs = .ok qa)
    (hq : extract_user_query_qpp fs = .ok qq)
    (hf : askFailsB up = true) :
    strStarts (askCore up) failTag = true ∧
    wechat_callback_app raw xSig secret (some v) true up m =
      .ok (200, .obj [("text", .str (pySlice (askCore up) m))]) ∧
    wechat_callback_qpp raw xSig secret (some v) true up =
      .ok (200, .obj [("text", .str (pySlice (askCore up) 1500)),
        ("meta", .obj [("echo", .str (pySlice qq 2000)), ("model", .str "gpt-4o-mini")])]) := by
  refine ⟨askCore_fail_starts up hf, ?_, ?_⟩
  · have h := app_main_path raw xSig secret (some v) true up m fs qa hv hb ha
    simpa [ask_openai_app] using h
  · have h := qpp_main_path raw xSig secret v true up fs qq hv hb hq
    simpa [ask_openai_qpp] using h

/-- C4, witness: secret disabled, payload `{"text": "hi"}`, upstream HTTP
500 — the failure text reaches both 200 responses. -/
theorem upstream_failure_soft_witness :
    strStarts (askCore (.resp 500 (some (.obj [])))) failTag = true ∧
    wechat_callback_app [] none "" (some (.obj [("text", .str "hi")])) true
        (.resp 500 (some (.obj []))) 1500 =
      .ok (200, .obj [("text", .str (pySlice (askCore (.resp 500 (some (.obj [])))) 1500))]) ∧
    wechat_callback_qpp [] none "" (some (.obj [("text", .str "hi")])) true
        (.resp 500 (some (.obj []))) =
      .ok (200, .obj [("text", .str (pySlice (askCore (.resp 500 (some (.obj [])))) 1500)),
        ("meta", .obj [("echo", .str (pySlice "hi" 2000)), ("model", .str "gpt-4o-mini")])]) :=
  upstream_failure_soft [] none "" (.obj [("text", .str "hi")])
    (.resp 500 (some (.obj []))) 1500 [("text", .str "hi")] "hi" "hi"
    rfl rfl rfl rfl rfl

/-- Every outcome of the app handler: 401, an escaped exception, or a 200
carrying the truncated completion answer. -/
theorem wechat_callback_app_cases (raw : List Nat) (xSig : Option String) (secret : String)
    (jb : Option JValue) (key : Bool) (up : Upstream) (m : Nat) :
    wechat_callback_app raw xSig secret jb key up m = .ok (401, err401) ∨
    (∃ e, wechat_callback_app raw xSig secret jb key up m = .error e) ∨
    (∃ fs q, resolveBody jb = .obj fs ∧ extract_user_query_app fs = .ok q ∧
      wechat_callback_app raw xSig secret jb key up m =
        .ok (200, .obj [("text", .str (pySlice (ask_openai_app key (pySlice q 2000) up) m))])) := by
  cases hv : verify_signature secret raw xSig with
  | error e =>
    right; left
    exact ⟨e, by simp [wechat_callback_app.eq_def, hv]⟩
  | ok b =>
    cases b with
    | false =>
      left
      rw [wechat_callback_app.eq_def, hv]
    | true =>
      cases hr : resolveBody jb with
      | obj fs =>
        cases hx : extract_user_query_app fs with
        | error e =>
          right; left
          exact ⟨e, by simp [wechat_callback_app.eq_def, hv, hr, hx]⟩
        | ok q =>
          right; right
          exact ⟨fs, q, rfl, hx, app_main_path raw xSig secret jb key up m fs q hv hr hx⟩
      | null =>
        right; left
        exact ⟨"AttributeError", by simp [wechat_callback_app.eq_def, hv, hr]⟩
      | bool b =>
        right; left
        exact ⟨"AttributeError", by simp [wechat_callback_app.eq_def, hv, hr]⟩
      | num n =>
        right; left
        exact ⟨"AttributeError", by simp [wechat_callback_app.eq_def, hv, hr]⟩
      | str s =>
        right; left
        exact ⟨"AttributeError", by simp [wechat_callback_app.eq_def, hv, hr]⟩
      | arr xs =>
        right; left
        exact ⟨"AttributeError", by simp [wechat_callback_app.eq_def, hv, hr]⟩

/-- Every outcome of the qpp handler: 401, 400 bad json, an escaped
exception, or a 200 carrying the answer and the `meta` object. -/
theorem wechat_callback_qpp_cases (raw : List Nat) (xSig : Option String) (secret : String)
    (jb : Option JValue) (key : Bool) (up : Upstream) :
    wechat_callback_qpp raw xSig secret jb key up = .ok (401, err401) ∨
    wechat_callback_qpp raw xSig secret jb key up =
      .ok (400, .obj [("code", .num 400), ("msg", .str "bad json")]) ∨
    (∃ e, wechat_callback_qpp raw xSig secret jb key up = .error e) ∨
    (∃ v fs q, jb = some v ∧ resolveBody (some v) = .obj fs ∧
      extract_user_query_qpp fs = .ok q ∧
      wechat_callback_qpp raw xSig secret jb key up =
        .ok (200, .obj [("text",
            .str (if key then pySlice (ask_openai_qpp (pySlice q 2000) up) 1500
                  else "未配置 OPENAI_API_KEY")),
          ("meta", .obj [("echo", .str (pySlice q 2000)),
            ("model", .str "gpt-4o-mini")])])) := by
  cases hv : verify_signature secret raw xSig with
  | error e =>
    right; right; left
    exact ⟨e, by simp [wechat_callback_qpp.eq_def, hv]⟩
  | ok b =>
    cases b with
    | false =>
      left
      rw [wechat_callback_qpp.eq_def, hv]
    | true =>
      cases jb with
      | none =>
        right; left
        rw [wechat_callback_qpp.eq_def, hv]
      | some v =>
        cases hr : resolveBody (some v) with
        | obj fs =>
          cases hx : extract_user_query_qpp fs with
          | error e =>
            right; right; left
            exact ⟨e, by simp [wechat_callback_qpp.eq_def, hv, hr, hx]⟩
          | ok q =>
            right; right; right
            exact ⟨v, fs, q, rfl, hr, hx, qpp_main_path raw xSig secret v key up fs q hv hr hx⟩
        | null =>
          right; right; left
          exact ⟨"AttributeError", by simp [wechat_callback_qpp.eq_def, hv, hr]⟩
        | bool b =>
          right; right; left
          exact ⟨"AttributeError", by simp [wechat_callback_qpp.eq_def, hv, hr]⟩
        | num n =>
          right; right; left
          exact ⟨"AttributeError", by simp [wechat_callback_qpp.eq_def, hv, hr]⟩
        | str s =>
          right; right; left
          exact ⟨"AttributeError", by simp [wechat_callback_qpp.eq_def, hv, hr]⟩
        | arr xs =>
          right; right; left
          exact ⟨"AttributeError", by simp [wechat_callback_qpp.eq_def, hv, hr]⟩

/-- C8: whatever the request and upstream outcome, any string placed in the
`text` field of a handler response is at most the configured maximum reply
length — `MAX_REPLY_LEN` (`m`) for `src/app.py`, the hard-coded 1500 for
`src/qpp.py` (whose untruncated no-credential answer is 18 characters). -/
theorem reply_length_bound (raw : List Nat) (xSig : Option String) (secret : String)
    (jb : Option JValue) (key : Bool) (up : Upstream) (m : Nat) :
    (∀ st b s, wechat_callback_app raw xSig secret jb key up m = .ok (st, b) →
      getField b "text" = some (.str s) → s.length ≤ m) ∧
    (∀ st b s, wechat_callback_qpp raw xSig secret jb key up = .ok (st, b) →
      getField b "text" = some (.str s) → s.length ≤ 1500) := by
  constructor
  · intro st b s h ht
    rcases wechat_callback_app_cases raw xSig secret jb key up m with
      h1 | ⟨e, h1⟩ | ⟨fs, q, _hr, _hx, h1⟩
    · have h2 := h.symm.trans h1
      cases h2
      rw [show getField err401 "text" = (none : Option JValue) from rfl] at ht
      cases ht
    · have h2 := h1.symm.trans h
      cases h2
    · have h2 := h.symm.trans h1
      cases h2
      rw [show getField (JValue.obj [("text",
          .str (pySlice (ask_openai_app key (pySlice q 2000) up) m))]) "text" =
        some (JValue.str (pySlice (ask_openai_app key (pySlice q 2000) up) m)) from rfl] at ht
      cases ht
      rw [pySlice_len]
      exact Nat.min_le_left _ _
  · intro st b s h ht
    rcases wechat_callback_qpp_cases raw xSig secret jb key up with
      h1 | h1 | ⟨e, h1⟩ | ⟨v, fs, q, _hjb, _hr, _hx, h1⟩
    · have h2 := h.symm.trans h1
      cases h2
      rw [show getField err401 "text" = (none : Option JValue) from rfl] at ht
      cases ht
    · have h2 := h.symm.trans h1
      cases h2
      rw [show getField (JValue.obj [("code", .num 400), ("msg", .str "bad json")]) "text" =
        (none : Option JValue) from rfl] at ht
      cases ht
    · have h2 := h1.symm.trans h
      cases h2
    · have h2 := h.symm.trans h1
      cases h2
      rw [show getField (JValue.obj [("text",
          .str (if key then pySlice (ask_openai_qpp (pySlice q 2000) up) 1500
                else "未配置 OPENAI_API_KEY")),
          ("meta", .obj [("echo", .str (pySlice q 2000)),
            ("model", .str "gpt-4o-mini")])]) "text" =
        some (JValue.str (if key then pySlice (ask_openai_qpp (pySlice q 2000) up) 1500
              else "未配置 OPENAI_API_KEY")) from rfl] at ht
      cases ht
      cases key with
      | true =>
        rw [if_pos rfl, pySlice_len]
        exact Nat.min_le_left _ _
      | false =>
        rw [if_neg (by decide)]
        decide

/-- C8, witness: with default configuration and payload `{"text": "hi"}`, the
app handler's 200 response carries `你说的是：hi`, of length at most 1500. -/
theorem reply_length_bound_witness :
    ("你说的是：hi" : String).length ≤ 1500 :=
  (reply_length_bound [] none "" (some (.obj [("text", .str "hi")])) false
    (.exc "e") 1500).1 200 (.obj [("text", .str "你说的是：hi")]) "你说的是：hi" rfl rfl

/-- C9, counterexample: with no secret and no credential configured, a POST
of `{"text": "hello"}` to the qpp variant returns 200 whose `text` field is
the fixed string `未配置 OPENAI_API_KEY`, which does not contain `"hello"`
(the echoed query only appears in the debug `meta.echo` field). -/
theorem echo_policy_qpp_no_echo :
    wechat_callback_qpp [] none "" (some (.obj [("text", .str "hello")])) false (.exc "e") =
      .ok (200, .obj [("text", .str "未配置 OPENAI_API_KEY"),
        ("meta", .obj [("echo", .str "hello"), ("model", .str "gpt-4o-mini")])]) ∧
    strContains "未配置 OPENAI_API_KEY" "hello" = false := ⟨rfl, by decide⟩

/-- C9 (amended): on POST `{"text": "hello"}` with no secret and no
credential, the app variant returns 200 with `text` the echo string
`你说的是：hello`, which contains `"hello"`; the qpp variant returns 200
with `text` the fixed string `未配置 OPENAI_API_KEY` and echoes `"hello"`
only in `meta.echo`. -/
theorem echo_policy_by_variant :
    wechat_callback_app [] none "" (some (.obj [("text", .str "hello")])) false
        (.exc "e") 1500 =
      .ok (200, .obj [("text", .str "你说的是：hello")]) ∧
    strContains "你说的是：hello" "hello" = true ∧
    wechat_callback_qpp [] none "" (some (.obj [("text", .str "hello")])) false (.exc "e") =
      .ok (200, .obj [("text", .str "未配置 OPENAI_API_KEY"),
        ("meta", .obj [("echo", .str "hello"), ("model", .str "gpt-4o-mini")])]) :=
  ⟨rfl, by decide, rfl⟩

/-- C10, counterexample: on the JSON object payload `{"message": 5}` the
extractor raises `AttributeError` instead of returning a (non-empty) string. -/
theorem extract_nonempty_raises :
    extract_user_query_app [("message", .num 5)] = .error "AttributeError" := rfl

/-- C10 (amended): whenever either extractor returns, its result is a
non-empty string and so is the 2000-character truncation the handlers test,
hence the empty-query branch is unreachable: the qpp handler can never
produce the 400 `empty query` response (and the app diagnostic reply would
likewise require an empty truncated query, which never occurs). -/
theorem extract_nonempty_and_branch_unreachable :
    (∀ fs q, extract_user_query_app fs = .ok q → q ≠ "" ∧ pySlice q 2000 ≠ "") ∧
    (∀ fs q, extract_user_query_qpp fs = .ok q → q ≠ "" ∧ pySlice q 2000 ≠ "") ∧
    (∀ raw xSig secret jb key up, wechat_callback_qpp raw xSig secret jb key up ≠
      .ok (400, .obj [("code", .num 400), ("msg", .str "empty query")])) := by
  refine ⟨?_, ?_, ?_⟩
  · intro fs q hx
    have h1 := extract_app_ne_empty fs q hx
    exact ⟨h1, pySlice_ne_empty q 2000 (by norm_num) h1⟩
  · intro fs q hx
    have h1 := extract_qpp_ne_empty fs q hx
    exact ⟨h1, pySlice_ne_empty q 2000 (by norm_num) h1⟩
  · intro raw xSig secret jb key up contra
    rcases wechat_callback_qpp_cases raw xSig secret jb key up with
      h1 | h1 | ⟨e, h1⟩ | ⟨v, fs, q, _hjb, _hr, _hx, h1⟩
    · exact absurd (congrArg respSt (h1.symm.trans contra)) (by decide)
    · exact absurd (congrArg respMsg (h1.symm.trans contra)) (by decide)
    · cases h1.symm.trans contra
    · have hc := congrArg respSt (h1.symm.trans contra)
      simp [respSt] at hc

/-- C10, witness: the payload `{"text": "hi"}` extracts to the non-empty
`"hi"`, and the qpp handler on it cannot answer 400 `empty query`. -/
theorem extract_nonempty_witness :
    (("hi" : String) ≠ "" ∧ pySlice "hi" 2000 ≠ "") ∧
    wechat_callback_qpp [] none "" (some (.obj [("text", .str "hi")])) false (.exc "e") ≠
      .ok (400, .obj [("code", .num 400), ("msg", .str "empty query")]) :=
  ⟨extract_nonempty_and_branch_unreachable.1 [("text", .str "hi")] "hi" rfl,
   extract_nonempty_and_branch_unreachable.2.2 [] none "" (some (.obj [("text", .str "hi")]))
     false (.exc "e")⟩
